import Mathlib

/-!
Verification development for the floor-plan generation backend.

The definitions below are a shallow embedding of the backend sources:
  - `backend/src/scoring/plan.scorer.ts` (weighted scorer),
  - `backend/src/validators/regulatory.validator.ts` (regulatory validator),
  - the Vastu validator (`validateVastu`, `getVastuStrictness`),
  - the 3x3 sector geometry (`computeDirection`),
  - `backend/src/memory/session.memory.ts` (job store),
  - `backend/src/orchestrator/design.orchestrator.ts` (control loop and
    progress-event emission).

JavaScript numbers are modelled as rationals (`ℚ`); all arithmetic in the
embedded code paths is exact decimal arithmetic on small literals, so `ℚ`
agrees with IEEE semantics on every statement proved here.  Human-readable
`message` / `recommendation` strings of violations and compliance items are
elided: no property below depends on them; the identifying data of each item
(rule, status, severity, category, penalty, room) is kept.  JS `Map`s are
modelled as association lists in insertion order, matching the iteration
order of `Map.entries()`.
-/

namespace ArchAI

/-! ## Core domain types (backend/src/types) -/

inductive CardinalDirection
  | NW | N | NE | W | CENTER | E | SW | S | SE
  deriving DecidableEq, Repr

inductive RoomClassification
  | master_bedroom | children_bedroom | guest_bedroom | bedroom
  | kitchen | living_room | dining_room | bathroom | toilet
  | pooja_room | study_room | balcony | staircase | corridor
  | entrance | foyer | storage | parking | utility
  deriving DecidableEq, Repr

inductive RoomType
  | room | circulation | outdoor | setback | service
  deriving DecidableEq, Repr

inductive FeatureType
  | door | window | opening
  deriving DecidableEq, Repr

inductive WallSide
  | top | bottom | left | right
  deriving DecidableEq, Repr

structure WallFeature where
  type : FeatureType
  wall : WallSide
  position : ℚ
  width : ℚ
  deriving DecidableEq, Repr

/-- A room enriched with direction, centroid, area and classification
(`RoomWithDirection` in `agent.types.ts`). -/
structure RoomWithDirection where
  id : String
  name : String
  type : RoomType
  x : ℚ
  y : ℚ
  width : ℚ
  height : ℚ
  features : List WallFeature
  guidance : Option String
  floor : Option ℕ
  direction : CardinalDirection
  centerX : ℚ
  centerY : ℚ
  area : ℚ
  classification : RoomClassification
  deriving DecidableEq, Repr

structure PlotGeometry where
  width : ℚ
  depth : ℚ
  deriving DecidableEq, Repr

structure SetbackRequirements where
  front : ℚ
  left : ℚ
  right : ℚ
  rear : ℚ
  deriving DecidableEq, Repr

structure MunicipalConfig where
  maxFAR : ℚ
  maxGroundCoverage : ℚ
  minRoomSizes : RoomClassification → Option ℚ
  minCorridorWidth : ℚ
  minVentilationRatio : ℚ
  defaultSetbacks : SetbackRequirements

inductive Severity
  | critical | major | minor
  deriving DecidableEq, Repr

/-! ## Geometry: computeDirection (3x3 sector assignment) -/

/-- Column of the 3x3 plot grid for a centroid x-coordinate: the local
`col` of `computeDirection` (0 = W column, 1 = center, 2 = E column). -/
def colIndex (centerX plotWidth : ℚ) : ℕ :=
  let colThird := plotWidth / 3
  if centerX < colThird then 0
  else if centerX < colThird * 2 then 1
  else 2

/-- Row of the 3x3 plot grid for a centroid y-coordinate: the local
`row` of `computeDirection` (0 = N row, 1 = center, 2 = S row). -/
def rowIndex (centerY plotDepth : ℚ) : ℕ :=
  let rowThird := plotDepth / 3
  if centerY < rowThird then 0
  else if centerY < rowThird * 2 then 1
  else 2

/-- `computeDirection` from the geometry utilities: divides the plot into a
3x3 grid (origin at the NW corner, X toward East, Y toward South) and returns
the cardinal direction of the given center point via the lookup
`[[NW,N,NE],[W,CENTER,E],[SW,S,SE]]`. -/
def computeDirection (centerX centerY plotWidth plotDepth : ℚ) : CardinalDirection :=
  match rowIndex centerY plotDepth, colIndex centerX plotWidth with
  | 0, 0 => .NW
  | 0, 1 => .N
  | 0, _ => .NE
  | 1, 0 => .W
  | 1, 1 => .CENTER
  | 1, _ => .E
  | _, 0 => .SW
  | _, 1 => .S
  | _, _ => .SE

/-! ## Weighted scorer (plan.scorer.ts) -/

structure BreakdownEntry where
  category : String
  weight : ℚ
  score : ℚ
  weightedScore : ℚ
  deriving DecidableEq, Repr

structure PlanScore where
  finalScore : ℚ
  breakdown : List BreakdownEntry
  passesThreshold : Bool
  deriving DecidableEq, Repr

def DEFAULT_THRESHOLD : ℚ := 7/10

/-- `scorePlan`: weighted scoring
`finalScore = 0.4 * regulatoryScore + 0.3 * vastuScore + 0.2 * spatialEfficiency
+ 0.1 * criticConfidence`, summed over the breakdown exactly as the source's
`reduce`.  The threshold argument defaults to `DEFAULT_THRESHOLD` at every
call site in the sources; it is passed explicitly here. -/
def scorePlan (regulatoryScore vastuScore spatialEfficiency criticConfidence threshold : ℚ) :
    PlanScore :=
  let breakdown : List BreakdownEntry :=
    [ { category := "Regulatory Compliance", weight := 2/5, score := regulatoryScore,
        weightedScore := 2/5 * regulatoryScore },
      { category := "Vastu/Cultural Compliance", weight := 3/10, score := vastuScore,
        weightedScore := 3/10 * vastuScore },
      { category := "Spatial Efficiency", weight := 1/5, score := spatialEfficiency,
        weightedScore := 1/5 * spatialEfficiency },
      { category := "Critic Confidence", weight := 1/10, score := criticConfidence,
        weightedScore := 1/10 * criticConfidence } ]
  let finalScore := (breakdown.map (fun b => b.weightedScore)).foldl (· + ·) 0
  { finalScore := finalScore, breakdown := breakdown,
    passesThreshold := decide (threshold ≤ finalScore) }

/-! ## Job store (session.memory.ts) -/

inductive JobStatus
  | pending | running | completed | failed
  deriving DecidableEq, Repr

structure JobProgress where
  phase : String
  iteration : ℕ
  maxIterations : ℕ
  deriving DecidableEq, Repr

/-- `GenerationJob` from `agent.types.ts`.  The optional `result` payload is
elided (no property below depends on it); the remaining fields are kept. -/
structure GenerationJob where
  jobId : String
  userId : String
  status : JobStatus
  progress : JobProgress
  error : Option String
  createdAt : ℕ
  updatedAt : ℕ
  deriving DecidableEq, Repr

/-- The job store: a JS `Map<string, GenerationJob>` in insertion order. -/
abbrev JobStore := List (String × GenerationJob)

def MAX_SESSIONS : ℕ := 1000

/-- JS `Map.set`: replace the value in place when the key is present
(keeping its position in iteration order), append otherwise. -/
def mapSet (jobs : JobStore) (k : String) (v : GenerationJob) : JobStore :=
  if jobs.any (fun e => e.1 == k) then
    jobs.map (fun e => if e.1 == k then (k, v) else e)
  else jobs ++ [(k, v)]

/-- The comparator of `createJob`'s eviction sort:
`(a, b) => a[1].createdAt - b[1].createdAt`, i.e. ascending `createdAt`,
under JS's stable `Array.sort`. -/
def byCreatedAt (a b : String × GenerationJob) : Bool :=
  decide (a.2.createdAt ≤ b.2.createdAt)

/-- The fresh job record built by `createJob`. -/
def freshJob (jobId userId : String) (now : ℕ) : GenerationJob :=
  { jobId := jobId, userId := userId, status := .pending,
    progress := { phase := "queued", iteration := 0, maxIterations := 3 },
    error := none, createdAt := now, updatedAt := now }

/-- `createJob`: evict the first entry of the store sorted by `createdAt`
when at capacity (`jobs.size >= MAX_SESSIONS`), then insert the fresh
pending job.  `Date.now()` is passed in as `now`.  Returns the new store
together with the created job. -/
def createJob (jobs : JobStore) (jobId userId : String) (now : ℕ) :
    JobStore × GenerationJob :=
  let jobs :=
    if MAX_SESSIONS ≤ jobs.length then
      match (jobs.mergeSort byCreatedAt).head? with
      | some oldest => jobs.eraseP (fun e => e.1 == oldest.1)
      | none => jobs
    else jobs
  let job := freshJob jobId userId now
  (mapSet jobs jobId job, job)

/-- The patch argument of `updateJob` (`Partial<GenerationJob>`): each
present field overwrites the stored job's field. -/
structure JobPatch where
  status : Option JobStatus
  progress : Option JobProgress
  error : Option String
  deriving DecidableEq, Repr

/-- `Object.assign(job, updates, { updatedAt: Date.now() })`. -/
def applyPatch (job : GenerationJob) (updates : JobPatch) (now : ℕ) : GenerationJob :=
  { job with
    status := updates.status.getD job.status,
    progress := updates.progress.getD job.progress,
    error := updates.error.or job.error,
    updatedAt := now }

/-- `updateJob`: look the job up; when present, assign the patch in place;
when absent, do nothing. -/
def updateJob (jobs : JobStore) (jobId : String) (updates : JobPatch) (now : ℕ) :
    JobStore :=
  match jobs.find? (fun e => e.1 == jobId) with
  | none => jobs
  | some _ => jobs.map (fun e => if e.1 == jobId then (e.1, applyPatch e.2 updates now) else e)

/-! ## Regulatory validator (regulatory.validator.ts) -/

inductive RegCategory
  | setback | far | coverage | room_size | corridor_width
  deriving DecidableEq, Repr

/-- A regulatory violation; `message` and `recommendation` elided. -/
structure RegulatoryViolation where
  category : RegCategory
  severity : Severity
  roomId : Option String
  roomName : Option String
  deriving DecidableEq, Repr

inductive ComplianceStatus
  | PASS | FAIL | WARN
  deriving DecidableEq, Repr

/-- The identifying part of a compliance item's `rule` string: the source
builds these strings as a fixed prefix per check, plus the room name for the
per-room checks and the rule id for Vastu items. -/
inductive ComplianceRule
  | setbackCompliance
  | floorAreaRatio
  | groundCoverage
  | minRoomSize (roomName : String)
  | corridorWidth (roomName : String)
  | ventilation (roomName : String)
  | vastuRuleItem (ruleId : String)
  | vastuCompliance
  deriving DecidableEq, Repr

/-- A compliance item; `message` and `recommendation` elided. -/
structure ComplianceItem where
  rule : ComplianceRule
  status : ComplianceStatus
  deriving DecidableEq, Repr

structure RegulatoryValidationResult where
  violations : List RegulatoryViolation
  score : ℚ
  setbackCompliance : Bool
  complianceItems : List ComplianceItem
  deriving DecidableEq, Repr

/-- `penaltyMap = { critical: 0.20, major: 0.10, minor: 0.03 }`. -/
def penaltyMap : Severity → ℚ
  | .critical => 1/5
  | .major => 1/10
  | .minor => 3/100

def habitableClassifications : List RoomClassification :=
  [.master_bedroom, .bedroom, .children_bedroom, .guest_bedroom,
   .kitchen, .living_room, .dining_room, .study_room]

/-- Check 1 of `validateRegulatory` (setback compliance): one `critical`
violation per building room whose rectangle crosses a setback line.  The
source collects the offending sides in an `issues` string list and pushes a
violation iff `issues.length > 0`; that is the disjunction of the four
conditions. -/
def setbackViolationsOf (buildingRooms : List RoomWithDirection) (plotGeometry : PlotGeometry)
    (setbacks : SetbackRequirements) : List RegulatoryViolation :=
  buildingRooms.filterMap (fun room =>
    if room.x < setbacks.left - 1/10 ∨
       plotGeometry.width - setbacks.right + 1/10 < room.x + room.width ∨
       room.y < setbacks.front - 1/10 ∨
       plotGeometry.depth - setbacks.rear + 1/10 < room.y + room.height then
      some { category := .setback, severity := .critical,
             roomId := some room.id, roomName := some room.name }
    else none)

/-- Check 4 of `validateRegulatory` (minimum room sizes), violations: one
`major` violation per room of type `room` whose classification has a
configured minimum and whose area falls short of it by more than 0.1. -/
def roomSizeViolationsOf (typedRooms : List RoomWithDirection)
    (municipalConfig : MunicipalConfig) : List RegulatoryViolation :=
  typedRooms.filterMap (fun room =>
    match municipalConfig.minRoomSizes room.classification with
    | some minSize =>
        if room.area < minSize - 1/10 then
          some { category := .room_size, severity := .major,
                 roomId := some room.id, roomName := some room.name }
        else none
    | none => none)

/-- Check 4 of `validateRegulatory` (minimum room sizes), items: one item per
room of type `room` with a configured minimum, FAIL or PASS. -/
def roomSizeItemsOf (typedRooms : List RoomWithDirection)
    (municipalConfig : MunicipalConfig) : List ComplianceItem :=
  typedRooms.filterMap (fun room =>
    match municipalConfig.minRoomSizes room.classification with
    | some minSize =>
        some { rule := .minRoomSize room.name,
               status := if room.area < minSize - 1/10 then ComplianceStatus.FAIL else .PASS }
    | none => none)

/-- Check 5 of `validateRegulatory` (corridor width), violations: one `major`
violation per circulation room whose smaller dimension falls short of the
minimum corridor width by more than 0.05. -/
def corridorViolationsOf (circulationRooms : List RoomWithDirection)
    (municipalConfig : MunicipalConfig) : List RegulatoryViolation :=
  circulationRooms.filterMap (fun room =>
    if min room.width room.height < municipalConfig.minCorridorWidth - 1/20 then
      some { category := .corridor_width, severity := .major,
             roomId := some room.id, roomName := some room.name }
    else none)

/-- Check 5 of `validateRegulatory` (corridor width), items: the source
pushes an item only inside the failure branch, so passing circulation rooms
contribute no item. -/
def corridorItemsOf (circulationRooms : List RoomWithDirection)
    (municipalConfig : MunicipalConfig) : List ComplianceItem :=
  circulationRooms.filterMap (fun room =>
    if min room.width room.height < municipalConfig.minCorridorWidth - 1/20 then
      some { rule := .corridorWidth room.name, status := ComplianceStatus.FAIL }
    else none)

/-- Check 6 of `validateRegulatory` (ventilation): WARN items for habitable
rooms with insufficient estimated window area or with no windows; rooms
passing the ratio contribute no item, and no violation is ever pushed. -/
def ventilationItemsOf (habitableRooms : List RoomWithDirection)
    (municipalConfig : MunicipalConfig) : List ComplianceItem :=
  habitableRooms.filterMap (fun room =>
    let windows : List WallFeature := room.features.filter (fun f => f.type == FeatureType.window)
    let estimatedWindowArea : ℚ := (windows.map (fun w => w.width * (12/10))).foldl (· + ·) 0
    let ratio : ℚ := if 0 < room.area then estimatedWindowArea / room.area else 0
    if ratio < municipalConfig.minVentilationRatio ∧ 0 < windows.length then
      some { rule := .ventilation room.name, status := ComplianceStatus.WARN }
    else if windows.length = 0 ∧ room.type == RoomType.room then
      some { rule := .ventilation room.name, status := ComplianceStatus.WARN }
    else none)

/-- `validateRegulatory`: the deterministic regulatory validator.  The six
checks run in source order; violations and compliance items are accumulated
exactly in the order the source pushes them (the per-check parts are the
named definitions above). -/
def validateRegulatory (rooms : List RoomWithDirection) (plotGeometry : PlotGeometry)
    (municipalConfig : MunicipalConfig) (setbacks : SetbackRequirements) (floors : ℚ) :
    RegulatoryValidationResult :=
  let plotArea : ℚ := plotGeometry.width * plotGeometry.depth
  let buildingRooms : List RoomWithDirection := rooms.filter (fun r =>
    r.type == .room || r.type == .circulation || r.type == .service)
  let builtUpArea : ℚ := (buildingRooms.map (fun r => r.area)).foldl (· + ·) 0
  -- 1. Setback compliance
  let setbackViolations : List RegulatoryViolation :=
    setbackViolationsOf buildingRooms plotGeometry setbacks
  let setbackPass : Bool :=
    decide ((setbackViolations.filter (fun v => v.category == .setback)).length = 0)
  let setbackItem : ComplianceItem :=
    { rule := .setbackCompliance, status := if setbackPass then .PASS else .FAIL }
  -- 2. FAR/FSI check
  let far : ℚ := builtUpArea * floors / plotArea
  let farPass : Bool := decide (far ≤ municipalConfig.maxFAR)
  let farItem : ComplianceItem :=
    { rule := .floorAreaRatio, status := if farPass then .PASS else .FAIL }
  let farViolations : List RegulatoryViolation :=
    if farPass then [] else
      [{ category := .far, severity := .critical, roomId := none, roomName := none }]
  -- 3. Ground coverage
  let coverage : ℚ := builtUpArea / plotArea
  let coveragePass : Bool := decide (coverage ≤ municipalConfig.maxGroundCoverage)
  let coverageItem : ComplianceItem :=
    { rule := .groundCoverage, status := if coveragePass then .PASS else .WARN }
  let coverageViolations : List RegulatoryViolation :=
    if coveragePass then [] else
      [{ category := .coverage, severity := .major, roomId := none, roomName := none }]
  -- 4. Minimum room sizes
  let typedRooms : List RoomWithDirection := rooms.filter (fun r => r.type == RoomType.room)
  -- 5. Corridor width
  let circulationRooms : List RoomWithDirection :=
    rooms.filter (fun r => r.type == RoomType.circulation)
  -- 6. Ventilation ratio
  let habitableRooms : List RoomWithDirection :=
    rooms.filter (fun r => habitableClassifications.contains r.classification)
  let violations : List RegulatoryViolation :=
    setbackViolations ++ farViolations ++ coverageViolations ++
    roomSizeViolationsOf typedRooms municipalConfig ++
    corridorViolationsOf circulationRooms municipalConfig
  let complianceItems : List ComplianceItem := [setbackItem, farItem, coverageItem] ++
    roomSizeItemsOf typedRooms municipalConfig ++
    corridorItemsOf circulationRooms municipalConfig ++
    ventilationItemsOf habitableRooms municipalConfig
  let totalPenalty : ℚ := (violations.map (fun v => penaltyMap v.severity)).foldl (· + ·) 0
  { violations := violations, score := max 0 (1 - totalPenalty),
    setbackCompliance := setbackPass, complianceItems := complianceItems }

/-- The `'National Building Code'` entry of `municipalConfigs` (fallback
profile).  The other three municipal profiles are structurally identical
tables and are not needed by any property below. -/
def nationalBuildingCode : MunicipalConfig :=
  { maxFAR := 2,
    maxGroundCoverage := 3/5,
    minRoomSizes := fun c =>
      match c with
      | .master_bedroom => some 12
      | .bedroom => some 9
      | .children_bedroom => some 9
      | .guest_bedroom => some 9
      | .kitchen => some 6
      | .living_room => some 12
      | .dining_room => some 8
      | .bathroom => some 3
      | .toilet => some 2
      | .pooja_room => some 3
      | .study_room => some 7
      | .corridor => some (3/2)
      | _ => none,
    minCorridorWidth := 6/5,
    minVentilationRatio := 1/10,
    defaultSetbacks := { front := 3, left := 3/2, right := 3/2, rear := 2 } }

/-! ## Cultural (Vastu) validator (vastu.validator.ts) -/

/-- A Vastu violation; `message` and `recommendation` elided. -/
structure VastuViolation where
  ruleId : String
  severity : Severity
  penalty : ℚ
  roomId : String
  roomName : String
  deriving DecidableEq, Repr

structure VastuValidationResult where
  violations : List VastuViolation
  score : ℚ
  complianceItems : List ComplianceItem
  deriving DecidableEq, Repr

/-- A rule of the Vastu rule table.  `check` keeps the source signature
`(room, allRooms, plotGeometry)` and returns the `pass` flag; the
`description`, `message` and `recommendation` strings are elided. -/
structure VastuRule where
  id : String
  appliesTo : List RoomClassification
  severity : Severity
  penalty : ℚ
  check : RoomWithDirection → List RoomWithDirection → PlotGeometry → Bool

/-- The 14-rule `vastuRules` table, in source order. -/
def vastuRules : List VastuRule :=
  [ { id := "VASTU_001",
      appliesTo := [.kitchen, .bathroom, .toilet, .staircase, .storage],
      severity := .critical, penalty := 15/100,
      check := fun room _ _ => room.direction != .CENTER },
    { id := "VASTU_002", appliesTo := [.master_bedroom],
      severity := .major, penalty := 1/10,
      check := fun room _ _ => [CardinalDirection.SW].contains room.direction },
    { id := "VASTU_003", appliesTo := [.kitchen],
      severity := .major, penalty := 1/10,
      check := fun room _ _ => [CardinalDirection.SE, .NW].contains room.direction },
    { id := "VASTU_004", appliesTo := [.living_room],
      severity := .minor, penalty := 5/100,
      check := fun room _ _ => [CardinalDirection.NE, .N, .E].contains room.direction },
    { id := "VASTU_005", appliesTo := [.pooja_room],
      severity := .major, penalty := 1/10,
      check := fun room _ _ => [CardinalDirection.NE, .E, .N].contains room.direction },
    { id := "VASTU_006", appliesTo := [.bathroom, .toilet],
      severity := .critical, penalty := 12/100,
      check := fun room _ _ => !([CardinalDirection.NE, .CENTER].contains room.direction) },
    { id := "VASTU_007", appliesTo := [.entrance, .foyer],
      severity := .major, penalty := 8/100,
      check := fun room _ _ => [CardinalDirection.N, .E, .NE].contains room.direction },
    { id := "VASTU_008", appliesTo := [.children_bedroom],
      severity := .minor, penalty := 5/100,
      check := fun room _ _ => [CardinalDirection.W, .NW, .E].contains room.direction },
    { id := "VASTU_009", appliesTo := [.guest_bedroom],
      severity := .minor, penalty := 4/100,
      check := fun room _ _ => [CardinalDirection.NW].contains room.direction },
    { id := "VASTU_010", appliesTo := [.study_room],
      severity := .minor, penalty := 4/100,
      check := fun room _ _ => [CardinalDirection.W, .E, .NE].contains room.direction },
    { id := "VASTU_011", appliesTo := [.dining_room],
      severity := .minor, penalty := 3/100,
      check := fun room _ _ => [CardinalDirection.W, .NW, .E].contains room.direction },
    { id := "VASTU_012", appliesTo := [.staircase],
      severity := .major, penalty := 8/100,
      check := fun room _ _ => !([CardinalDirection.NE, .CENTER].contains room.direction) },
    { id := "VASTU_013", appliesTo := [.balcony],
      severity := .minor, penalty := 3/100,
      check := fun room _ _ => [CardinalDirection.N, .E, .NE].contains room.direction },
    { id := "VASTU_014", appliesTo := [.storage],
      severity := .minor, penalty := 3/100,
      check := fun room _ _ => [CardinalDirection.SW, .S, .W].contains room.direction } ]

/-- The compliance items of the non-short-circuit path of `validateVastu`:
for each room, the applicable rules run in table order; each application
pushes an item (PASS, or WARN for failing minor rules, FAIL otherwise).
Note the rule predicates do not read the strictness, so this list is
independent of it. -/
def vastuItemsOf (rooms : List RoomWithDirection) (plotGeometry : PlotGeometry) :
    List ComplianceItem :=
  rooms.flatMap (fun room =>
    (vastuRules.filter (fun rule => rule.appliesTo.contains room.classification)).map
      (fun rule =>
        { rule := ComplianceRule.vastuRuleItem rule.id,
          status := if rule.check room rooms plotGeometry then ComplianceStatus.PASS
                    else if rule.severity == .minor then .WARN else .FAIL }))

/-- The violations of the non-short-circuit path of `validateVastu`: one per
failing rule application, carrying the rule's penalty weight.  Independent of
the strictness, which only scales the score penalty. -/
def vastuViolationsOf (rooms : List RoomWithDirection) (plotGeometry : PlotGeometry) :
    List VastuViolation :=
  rooms.flatMap (fun room =>
    (vastuRules.filter (fun rule => rule.appliesTo.contains room.classification)).filterMap
      (fun rule =>
        if rule.check room rooms plotGeometry then none
        else some { ruleId := rule.id, severity := rule.severity, penalty := rule.penalty,
                    roomId := room.id, roomName := room.name }))

/-- `validateVastu`: the deterministic Vastu validator.  With strictness 0 it
short-circuits to score 1, no violations and a single informational PASS
item.  Otherwise each failing rule application contributes
`penalty * vastuStrictness`; the score is `max(0, 1 - totalPenalty)`. -/
def validateVastu (rooms : List RoomWithDirection) (plotGeometry : PlotGeometry)
    (vastuStrictness : ℚ) : VastuValidationResult :=
  if vastuStrictness = 0 then
    { violations := [], score := 1,
      complianceItems := [{ rule := .vastuCompliance, status := .PASS }] }
  else
    let complianceItems : List ComplianceItem := vastuItemsOf rooms plotGeometry
    let violations : List VastuViolation := vastuViolationsOf rooms plotGeometry
    let totalPenalty : ℚ :=
      (violations.map (fun v => v.penalty * vastuStrictness)).foldl (· + ·) 0
    { violations := violations, score := max 0 (1 - totalPenalty),
      complianceItems := complianceItems }

/-- `getVastuStrictness`: maps the configured level to a coefficient. -/
def getVastuStrictness (level : Option String) : ℚ :=
  match level with
  | some "None" => 0
  | some "Slightly" => 1/4
  | some "Moderately" => 1/2
  | some "Strictly" => 1
  | _ => 0

/-! ## Orchestrator (design.orchestrator.ts)

The orchestrator drives LLM-backed agents.  The deterministic parts
(validators, scorer, event emission, iteration control, assembly) are
embedded directly; the nondeterministic agent outputs are parameters of the
run, collected in `OrchestratorEnv`: the normalized spec (Input agent
output), the initial plan (Spatial agent output), per-iteration critic and
refinement oracles, the Cost agent outcome and the Furniture agent outcome
(`none` models the thrown error that the orchestrator catches). -/

structure CritiqueResult where
  spatialEfficiency : ℚ
  circulationQuality : ℚ
  naturalLighting : ℚ
  privacyGradient : ℚ
  aestheticBalance : ℚ
  overallConfidence : ℚ
  critiques : List String
  strengths : List String
  deriving DecidableEq, Repr

/-- `FloorPlanGraph`; the `adjacencies`, `circulationArea` and `setbackArea`
fields are elided (no property below depends on them). -/
structure FloorPlanGraph where
  rooms : List RoomWithDirection
  designLog : List String
  totalArea : ℚ
  builtUpArea : ℚ
  plotCoverageRatio : ℚ
  deriving DecidableEq, Repr

/-- The fields of `NormalizedSpec` the orchestrator reads. -/
structure NormalizedSpec where
  plotGeometry : PlotGeometry
  setbackRequirements : SetbackRequirements
  municipalConfig : MunicipalConfig
  vastuStrictness : ℚ

structure IterationRecord where
  iteration : ℕ
  plan : FloorPlanGraph
  vastuResult : VastuValidationResult
  regulatoryResult : RegulatoryValidationResult
  critique : CritiqueResult
  score : PlanScore
  deriving DecidableEq, Repr

structure MaterialItem where
  material : String
  quantity : String
  unit : String
  estimatedCost : ℚ
  deriving DecidableEq, Repr

/-- `totalCostRange`; the `currency` string is elided. -/
structure CostRange where
  min : ℚ
  max : ℚ
  deriving DecidableEq, Repr

/-- The projection of a room that `orchestrate` puts into the final plan. -/
structure PlanRoom where
  id : String
  name : String
  type : RoomType
  x : ℚ
  y : ℚ
  width : ℚ
  height : ℚ
  features : List WallFeature
  guidance : Option String
  floor : Option ℕ
  deriving DecidableEq, Repr

structure FurnitureItem where
  id : String
  roomId : String
  type : String
  name : String
  x : ℚ
  y : ℚ
  width : ℚ
  height : ℚ
  rotation : ℚ
  deriving DecidableEq, Repr

structure FloorData where
  floorNumber : ℕ
  floorLabel : String
  rooms : List PlanRoom
  deriving DecidableEq, Repr

structure ComplianceSection where
  regulatory : List ComplianceItem
  cultural : List ComplianceItem
  deriving DecidableEq, Repr

structure GeneratedPlan where
  designLog : List String
  rooms : List PlanRoom
  totalArea : ℚ
  builtUpArea : ℚ
  plotCoverageRatio : ℚ
  compliance : ComplianceSection
  bom : List MaterialItem
  totalCostRange : CostRange
  furniture : Option (List FurnitureItem)
  floors : Option (List FloorData)
  deriving DecidableEq, Repr

structure OrchestrationResult where
  finalPlan : GeneratedPlan
  iterations : List IterationRecord
  finalScore : PlanScore
  converged : Bool
  deriving DecidableEq, Repr

/-- The payload distinguishing the two `violation_update` emissions: the
first carries `vastuViolations`/`vastuScore`, the second
`regulatoryViolations`/`regulatoryScore`. -/
inductive ViolationPayload
  | vastu (violations : ℕ) (score : ℚ)
  | regulatory (violations : ℕ) (score : ℚ)
  deriving DecidableEq, Repr

/-- The progress events `orchestrate` emits, with the payload fields the
properties below depend on (timing/model metadata of `agent_complete`
elided).  The `error` constructor is the terminal error event of the
transport layer; `orchestrate` itself never emits it. -/
inductive ProgressEvent
  | agent_start (agent phase : String)
  | agent_complete (agent : String)
  | iteration_start (iteration maxIterations : ℕ)
  | violation_update (iteration : ℕ) (payload : ViolationPayload)
  | score_update (iteration : ℕ) (finalScore : ℚ) (passesThreshold : Bool)
  | completed (finalScore : ℚ) (converged : Bool) (iterationCount : ℕ)
  | error (message : String)
  deriving DecidableEq, Repr

structure CostData where
  bom : List MaterialItem
  totalCostRange : CostRange
  deriving DecidableEq, Repr

/-- The outcome of the Cost agent's single LLM call for this run: the
decoded `CostEstimate` data, or the error that `generateStructuredContent`
rethrows after exhausting its fallback chain. -/
inductive CostOutcome
  | ok (data : CostData)
  | failure (message : String)
  deriving DecidableEq, Repr

/-- `CostAgent.execute` (the `CostAgent` class, second document of
`backend/src/agents/input.agent.ts`): it builds the prompt and awaits
`generateStructuredContent` with no try/catch of its own, so the call either
returns the decoded `CostEstimate` or propagates the error unchanged; the
thrown error is modelled as `Except.error`. -/
def costAgentExecute : CostOutcome → Except String CostData
  | .ok data => .ok data
  | .failure message => .error message

/-- The agent outputs a single orchestration run consumes.  `costData` is
the Cost agent's decoded output on the path where its call succeeds; the
fallible cost step is modelled by `orchestrateExec` below. -/
structure OrchestratorEnv where
  spec : NormalizedSpec
  initialPlan : FloorPlanGraph
  critic : ℕ → FloorPlanGraph → CritiqueResult
  refine : ℕ → FloorPlanGraph → FloorPlanGraph
  costData : CostData
  furnitureOutcome : Option (List FurnitureItem)
  floors : ℕ

def MAX_ITERATIONS : ℕ := 3

/-- One pass of the refinement loop body of `orchestrate` (iteration `i`),
followed by the remaining passes; `fuel` is `MAX_ITERATIONS - i + 1`.
Returns (events, iteration records, current plan, last computed score,
converged).  Event order within an iteration follows the source: the
`iteration_start`, then the Vastu `violation_update`, then the regulatory
`violation_update`, the critic's `agent_start`/`agent_complete`, the
`score_update`, and on a non-final non-passing iteration the refinement
agent's `agent_start`/`agent_complete`. -/
def orchLoop (env : OrchestratorEnv) :
    ℕ → ℕ → FloorPlanGraph →
    List ProgressEvent × List IterationRecord × FloorPlanGraph × Option PlanScore × Bool
  | _, 0, plan => ([], [], plan, none, false)
  | i, fuel + 1, plan =>
    let vastuResult : VastuValidationResult :=
      validateVastu plan.rooms env.spec.plotGeometry env.spec.vastuStrictness
    let regulatoryResult : RegulatoryValidationResult :=
      validateRegulatory plan.rooms env.spec.plotGeometry env.spec.municipalConfig
        env.spec.setbackRequirements (env.floors : ℚ)
    let critique : CritiqueResult := env.critic i plan
    let score : PlanScore :=
      scorePlan regulatoryResult.score vastuResult.score
        critique.spatialEfficiency critique.overallConfidence DEFAULT_THRESHOLD
    let record : IterationRecord :=
      { iteration := i, plan := plan, vastuResult := vastuResult,
        regulatoryResult := regulatoryResult, critique := critique, score := score }
    let headEvents : List ProgressEvent :=
      [.iteration_start i MAX_ITERATIONS,
       .violation_update i (.vastu vastuResult.violations.length vastuResult.score),
       .violation_update i (.regulatory regulatoryResult.violations.length regulatoryResult.score),
       .agent_start "CriticAgent" "critique",
       .agent_complete "CriticAgent",
       .score_update i score.finalScore score.passesThreshold]
    if score.passesThreshold then
      (headEvents, [record], plan, some score, true)
    else if i < MAX_ITERATIONS then
      let refined : FloorPlanGraph := env.refine i plan
      let rest := orchLoop env (i + 1) fuel refined
      (headEvents ++
         [.agent_start "RefinementAgent" "refinement", .agent_complete "RefinementAgent"] ++
         rest.1,
       record :: rest.2.1, rest.2.2.1, some (rest.2.2.2.1.getD score), rest.2.2.2.2)
    else
      (headEvents, [record], plan, some score, false)

/-- `orchestrate`: event emission and result assembly of a full run on the
path where every agent call returns — the LLM outcomes are the data carried
by `env`, including the Cost agent's decoded output `env.costData`.  The
`finalScore!` non-null assertion of the source is modelled by `Option.getD`;
`orchLoop` with fuel `MAX_ITERATIONS ≥ 1` always returns `some`.  The run
in which the Cost agent's call throws is `orchestrateExec` below. -/
def orchestrate (env : OrchestratorEnv) : List ProgressEvent × OrchestrationResult :=
  let specEvents : List ProgressEvent :=
    [.agent_start "InputAgent" "normalization", .agent_complete "InputAgent",
     .agent_start "SpatialAgent" "spatial_generation", .agent_complete "SpatialAgent"]
  let loopResult := orchLoop env 1 MAX_ITERATIONS env.initialPlan
  let loopEvents : List ProgressEvent := loopResult.1
  let iterations : List IterationRecord := loopResult.2.1
  let currentPlan : FloorPlanGraph := loopResult.2.2.1
  let finalScore : PlanScore :=
    loopResult.2.2.2.1.getD (scorePlan 0 0 0 0 DEFAULT_THRESHOLD)
  let converged : Bool := loopResult.2.2.2.2
  let costData : CostData := env.costData
  let costEvents : List ProgressEvent :=
    [.agent_start "CostAgent" "cost_estimation", .agent_complete "CostAgent"]
  let allFurniture : List FurnitureItem := env.furnitureOutcome.getD []
  let furnitureEvents : List ProgressEvent :=
    [.agent_start "FurnitureAgent" "furniture_placement", .agent_complete "FurnitureAgent"]
  let lastIteration : Option IterationRecord := iterations.getLast?
  let planRooms : List PlanRoom := currentPlan.rooms.map (fun r =>
    { id := r.id, name := r.name, type := r.type, x := r.x, y := r.y,
      width := r.width, height := r.height, features := r.features,
      guidance := r.guidance, floor := r.floor })
  let floorsData : Option (List FloorData) :=
    if 1 < env.floors then
      some ((List.range env.floors).map (fun f =>
        let floorRooms : List PlanRoom := planRooms.filter (fun r => r.floor.getD 0 == f)
        { floorNumber := f,
          floorLabel := if f = 0 then "Ground Floor" else "Floor " ++ toString f,
          rooms := if 0 < floorRooms.length then floorRooms else planRooms }))
    else none
  let finalPlan : GeneratedPlan :=
    { designLog := currentPlan.designLog, rooms := planRooms,
      totalArea := currentPlan.totalArea, builtUpArea := currentPlan.builtUpArea,
      plotCoverageRatio := currentPlan.plotCoverageRatio,
      compliance :=
        { regulatory := (lastIteration.map (fun it => it.regulatoryResult.complianceItems)).getD [],
          cultural := (lastIteration.map (fun it => it.vastuResult.complianceItems)).getD [] },
      bom := costData.bom, totalCostRange := costData.totalCostRange,
      furniture := if 0 < allFurniture.length then some allFurniture else none,
      floors := floorsData }
  let events : List ProgressEvent :=
    specEvents ++ loopEvents ++ costEvents ++ furnitureEvents ++
      [.completed finalScore.finalScore converged iterations.length]
  (events,
   { finalPlan := finalPlan, iterations := iterations, finalScore := finalScore,
     converged := converged })

/-- The full run including the fallible Cost step.  The source `orchestrate`
awaits `costAgent.execute` at its step 4 with no try/catch (unlike the
Furniture step, which is wrapped in try/catch): it emits the Cost agent's
`agent_start` and then, if the call throws, the exception propagates out of
`orchestrate` — no BOM recovery, no assembly, no `completed` event.  The
events already handed to the progress callback remain delivered.  When the
call returns, the run is exactly `orchestrate` with the decoded data. -/
def orchestrateExec (env : OrchestratorEnv) (costOutcome : CostOutcome) :
    List ProgressEvent × Except String OrchestrationResult :=
  match costAgentExecute costOutcome with
  | .ok data =>
    let run := orchestrate { env with costData := data }
    (run.1, .ok run.2)
  | .error message =>
    ([.agent_start "InputAgent" "normalization", .agent_complete "InputAgent",
      .agent_start "SpatialAgent" "spatial_generation", .agent_complete "SpatialAgent"] ++
      (orchLoop env 1 MAX_ITERATIONS env.initialPlan).1 ++
      [.agent_start "CostAgent" "cost_estimation"],
     .error message)

/-- The async handler of `POST /api/generate` (`api.routes.ts`): it
broadcasts every orchestrator event; on success it marks the job `completed`
and broadcasts its own `completed` event; on a thrown error it marks the job
`failed` and broadcasts the terminal `error` event.  Returns the broadcast
stream and the job's terminal status. -/
def runGenerationJob (env : OrchestratorEnv) (costOutcome : CostOutcome) :
    List ProgressEvent × JobStatus :=
  match orchestrateExec env costOutcome with
  | (events, .ok result) =>
    (events ++
      [.completed result.finalScore.finalScore result.converged result.iterations.length],
     JobStatus.completed)
  | (events, .error message) =>
    (events ++ [.error message], JobStatus.failed)

/-! ## Concrete fixtures for witnesses and counterexamples -/

def plot10 : PlotGeometry := { width := 10, depth := 10 }

def zeroSetbacks : SetbackRequirements := { front := 0, left := 0, right := 0, rear := 0 }

/-- A 2 m x 2 m circulation room meeting the minimum corridor width. -/
def corridorRoom : RoomWithDirection :=
  { id := "c1", name := "Corridor", type := .circulation, x := 3, y := 3,
    width := 2, height := 2, features := [], guidance := none, floor := none,
    direction := .CENTER, centerX := 4, centerY := 4, area := 4,
    classification := .corridor }

/-- A kitchen whose centroid lies in the central (Brahmasthan) sector; it
fails Vastu rules VASTU_001 and VASTU_003. -/
def kitchenCenterRoom : RoomWithDirection :=
  { id := "k1", name := "Kitchen", type := .room, x := 4, y := 4,
    width := 2, height := 2, features := [], guidance := none, floor := none,
    direction := .CENTER, centerX := 5, centerY := 5, area := 4,
    classification := .kitchen }

def specTest : NormalizedSpec :=
  { plotGeometry := plot10, setbackRequirements := zeroSetbacks,
    municipalConfig := nationalBuildingCode, vastuStrictness := 0 }

def planEmpty : FloorPlanGraph :=
  { rooms := [], designLog := [], totalArea := 100, builtUpArea := 0,
    plotCoverageRatio := 0 }

def critiquePerfect : CritiqueResult :=
  { spatialEfficiency := 1, circulationQuality := 1, naturalLighting := 1,
    privacyGradient := 1, aestheticBalance := 1, overallConfidence := 1,
    critiques := [], strengths := [] }

def critiqueZero : CritiqueResult :=
  { spatialEfficiency := 0, circulationQuality := 0, naturalLighting := 0,
    privacyGradient := 0, aestheticBalance := 0, overallConfidence := 0,
    critiques := [], strengths := [] }

/-- A minimal run whose critic converges immediately. -/
def env0 : OrchestratorEnv :=
  { spec := specTest, initialPlan := planEmpty,
    critic := fun _ _ => critiquePerfect, refine := fun _ plan => plan,
    costData := { bom := [], totalCostRange := { min := 0, max := 0 } },
    furnitureOutcome := none, floors := 1 }

/-- A run whose first-iteration final score is exactly the 0.70 threshold. -/
def envThreshold : OrchestratorEnv :=
  { spec := specTest, initialPlan := planEmpty,
    critic := fun _ _ => critiqueZero, refine := fun _ plan => plan,
    costData := { bom := [], totalCostRange := { min := 0, max := 0 } },
    furnitureOutcome := none, floors := 1 }

/-- Is this item one emitted by the min-room-size check (rule string
`Min Room Size: <name>`)? -/
def isMinRoomSizeItem (i : ComplianceItem) : Bool :=
  match i.rule with
  | .minRoomSize _ => true
  | _ => false

/-- Is this item one emitted by the corridor-width check (rule string
`Corridor Width: <name>`)? -/
def isCorridorWidthItem (i : ComplianceItem) : Bool :=
  match i.rule with
  | .corridorWidth _ => true
  | _ => false

/-- Is this item one emitted by the ventilation check (rule string
`Ventilation: <name>`)? -/
def isVentilationItem (i : ComplianceItem) : Bool :=
  match i.rule with
  | .ventilation _ => true
  | _ => false

def isErrorEvent : ProgressEvent → Bool
  | .error _ => true
  | _ => false

def isCompletedEvent : ProgressEvent → Bool
  | .completed _ _ _ => true
  | _ => false

def isViolationUpdateEvent : ProgressEvent → Bool
  | .violation_update _ _ => true
  | _ => false

/-- The `violation_update` events of a trace, in emission order, reduced to
(iteration, payload). -/
def violationUpdates (events : List ProgressEvent) : List (ℕ × ViolationPayload) :=
  events.filterMap (fun e =>
    match e with
    | .violation_update i p => some (i, p)
    | _ => none)

/-- A store entry for the job-store scenarios below. -/
def cEntry (id : String) (st : JobStatus) (t : ℕ) : String × GenerationJob :=
  (id, { jobId := id, userId := "u", status := st,
         progress := { phase := "queued", iteration := 0, maxIterations := 3 },
         error := none, createdAt := t, updatedAt := t })

/-- 999 pending jobs created at times 1..999. -/
def pendingTail : JobStore :=
  (List.range 999).map (fun i => cEntry (toString (i + 1)) .pending (i + 1))

/-- A store at capacity whose oldest job (`createdAt = 0`) is running. -/
def runningFirstStore : JobStore := cEntry "r0" .running 0 :: pendingTail

/-! ## General helper lemmas -/

theorem foldl_add_eq_add_sum (l : List ℚ) (init : ℚ) :
    l.foldl (· + ·) init = init + l.sum := by
  induction l generalizing init with
  | nil => simp
  | cons x xs ih => rw [List.foldl_cons, ih, List.sum_cons]; ring

theorem penaltyMap_nonneg (s : Severity) : 0 ≤ penaltyMap s := by
  cases s <;> norm_num [penaltyMap]

theorem vastuRules_penalty_nonneg : ∀ rule ∈ vastuRules, 0 ≤ rule.penalty := by
  intro rule h
  fin_cases h <;> norm_num

theorem vastuViolationsOf_penalty_nonneg (rooms : List RoomWithDirection)
    (plotGeometry : PlotGeometry) :
    ∀ v ∈ vastuViolationsOf rooms plotGeometry, 0 ≤ v.penalty := by
  intro v hv
  simp only [vastuViolationsOf, List.mem_flatMap] at hv
  obtain ⟨room, _, hv⟩ := hv
  obtain ⟨rule, hrule, hsome⟩ := List.mem_filterMap.mp hv
  have hrl : rule ∈ vastuRules := (List.mem_filter.mp hrule).1
  split at hsome
  · exact absurd hsome (by simp)
  · cases hsome
    simpa using vastuRules_penalty_nonneg rule hrl

theorem mem_mapSet {jobs : JobStore} {k : String} {v : GenerationJob}
    {e : String × GenerationJob} (he : e ∈ mapSet jobs k v) : e.2 = v ∨ e ∈ jobs := by
  unfold mapSet at he
  split at he
  · obtain ⟨x, hx, hxe⟩ := List.mem_map.mp he
    by_cases hk : (x.1 == k) = true
    · rw [if_pos hk] at hxe
      left; rw [← hxe]
    · rw [if_neg hk] at hxe
      right; rw [← hxe]; exact hx
  · rcases List.mem_append.mp he with h1 | h2
    · right; exact h1
    · left
      have : e = (k, v) := by simpa using h2
      rw [this]

theorem length_filterMap_isSome {α β : Type} (f : α → Option β) (l : List α) :
    (l.filterMap f).length = (l.filter (fun x => (f x).isSome)).length := by
  induction l with
  | nil => rfl
  | cons x xs ih => cases hfx : f x <;> simp [List.filterMap_cons, List.filter_cons, hfx, ih]

/-! ## Claim theorems -/

section ClaimTheorems

attribute [local semireducible] Rat.add Rat.mul Rat.sub Rat.inv

/-- C1 counterexample: `scorePlan` does not clamp its inputs.  With a critic
confidence of 10 (outside [0,1]) the final score is 1.9, which leaves [0,1];
the claim that the inputs are clamped before weighting and that the final
score always lies in [0,1] is false on the code. -/
theorem scorePlan_unclamped_counterexample :
    (scorePlan 1 1 1 10 DEFAULT_THRESHOLD).finalScore = 19/10 ∧
    ¬ ((scorePlan 1 1 1 10 DEFAULT_THRESHOLD).finalScore ≤ 1) := by decide

/-- C1 (amended): the final score equals the plain weighted sum
0.40·regulatory + 0.30·vastu + 0.20·spatial + 0.10·critic of the raw,
unclamped inputs; consequently it lies in [0,1] exactly when the inputs do —
in particular whenever all four inputs lie in [0,1]. -/
theorem scorePlan_weighted_sum_bounds (r v sp c th : ℚ) :
    (scorePlan r v sp c th).finalScore = 2/5 * r + 3/10 * v + 1/5 * sp + 1/10 * c ∧
    (0 ≤ r → r ≤ 1 → 0 ≤ v → v ≤ 1 → 0 ≤ sp → sp ≤ 1 → 0 ≤ c → c ≤ 1 →
      0 ≤ (scorePlan r v sp c th).finalScore ∧ (scorePlan r v sp c th).finalScore ≤ 1) := by
  have h : (scorePlan r v sp c th).finalScore = 2/5 * r + 3/10 * v + 1/5 * sp + 1/10 * c := by
    simp [scorePlan]
  refine ⟨h, ?_⟩
  intro h1 h2 h3 h4 h5 h6 h7 h8
  rw [h]
  constructor <;> nlinarith

/-- C1 witness: the amended theorem applied at regulatory = 1, vastu = 1/2,
spatial = 0, critic = 1. -/
theorem scorePlan_weighted_sum_bounds_witness :
    (scorePlan 1 (1/2) 0 1 DEFAULT_THRESHOLD).finalScore
        = 2/5 * 1 + 3/10 * (1/2) + 1/5 * 0 + 1/10 * 1 ∧
    (0 ≤ (scorePlan 1 (1/2) 0 1 DEFAULT_THRESHOLD).finalScore ∧
      (scorePlan 1 (1/2) 0 1 DEFAULT_THRESHOLD).finalScore ≤ 1) := by
  have h := scorePlan_weighted_sum_bounds 1 (1/2) 0 1 DEFAULT_THRESHOLD
  exact ⟨h.1, h.2 (by decide) (by decide) (by decide) (by decide) (by decide)
    (by decide) (by decide) (by decide)⟩

/-- C4 counterexample: with plot width 3, a centroid x-coordinate of exactly
1 = plotWidth/3 lies on the first vertical gridline; `computeDirection`
assigns it to column 1 (the CENTER column), not to column 0 (the W column)
as the claim states, because the half-open `<` test excludes the boundary
from the lower cell. -/
theorem computeDirection_gridline_counterexample :
    colIndex 1 3 = 1 ∧ colIndex 1 3 ≠ 0 ∧
    computeDirection 1 (1/2) 3 3 = CardinalDirection.N ∧
    computeDirection 1 (1/2) 3 3 ≠ CardinalDirection.NW := by decide

/-- C4 (amended): a centroid exactly on a gridline falls in the
higher-index cell: x = plotWidth/3 falls in column 1 and x = 2·plotWidth/3
in column 2, and likewise for the rows. -/
theorem gridline_falls_in_higher_index_cell (w d : ℚ) (hw : 0 < w) (hd : 0 < d) :
    colIndex (w/3) w = 1 ∧ colIndex (2*w/3) w = 2 ∧
    rowIndex (d/3) d = 1 ∧ rowIndex (2*d/3) d = 2 := by
  unfold colIndex rowIndex
  refine ⟨?_, ?_, ?_, ?_⟩
  · rw [if_neg (lt_irrefl _), if_pos (by linarith)]
  · rw [if_neg (by linarith), if_neg (by linarith)]
  · rw [if_neg (lt_irrefl _), if_pos (by linarith)]
  · rw [if_neg (by linarith), if_neg (by linarith)]

/-- C4 witness: the amended theorem applied at plot width = depth = 3. -/
theorem gridline_falls_in_higher_index_cell_witness :
    colIndex (3/3) 3 = 1 ∧ colIndex (2*3/3) 3 = 2 ∧
    rowIndex (3/3) 3 = 1 ∧ rowIndex (2*3/3) 3 = 2 :=
  gridline_falls_in_higher_index_cell 3 3 (by decide) (by decide)

/-- C7: the regulatory score equals `max(0, 1 − Σ penalty(v))` over the
returned violations, with penalties 0.20 / 0.10 / 0.03 for critical / major
/ minor, and always lies in [0,1]. -/
theorem validateRegulatory_score_formula (rooms : List RoomWithDirection)
    (plotGeometry : PlotGeometry) (municipalConfig : MunicipalConfig)
    (setbacks : SetbackRequirements) (floors : ℚ) :
    (validateRegulatory rooms plotGeometry municipalConfig setbacks floors).score =
      max 0 (1 - ((validateRegulatory rooms plotGeometry municipalConfig setbacks
        floors).violations.map (fun v => penaltyMap v.severity)).foldl (· + ·) 0) ∧
    0 ≤ (validateRegulatory rooms plotGeometry municipalConfig setbacks floors).score ∧
    (validateRegulatory rooms plotGeometry municipalConfig setbacks floors).score ≤ 1 := by
  refine ⟨rfl, le_max_left _ _, ?_⟩
  have hp : 0 ≤ ((validateRegulatory rooms plotGeometry municipalConfig setbacks
      floors).violations.map (fun v => penaltyMap v.severity)).foldl (· + ·) 0 := by
    rw [foldl_add_eq_add_sum, zero_add]
    refine List.sum_nonneg ?_
    intro x hx
    obtain ⟨v, _, rfl⟩ := List.mem_map.mp hx
    exact penaltyMap_nonneg v.severity
  have hs : (validateRegulatory rooms plotGeometry municipalConfig setbacks floors).score =
      max 0 (1 - ((validateRegulatory rooms plotGeometry municipalConfig setbacks
        floors).violations.map (fun v => penaltyMap v.severity)).foldl (· + ·) 0) := rfl
  rw [hs]
  exact max_le (by norm_num) (by linarith)

/-- C9: `passesThreshold` holds exactly when the final score is at least the
threshold; the normative default threshold is 0.70; and a run whose
first-iteration score is exactly 0.70 converges and stops after a single
iteration. -/
theorem passesThreshold_geq_threshold (r v sp c th : ℚ) :
    ((scorePlan r v sp c th).passesThreshold = true ↔
      th ≤ (scorePlan r v sp c th).finalScore) ∧
    DEFAULT_THRESHOLD = 7/10 ∧
    (orchestrate envThreshold).2.finalScore.finalScore = 7/10 ∧
    (orchestrate envThreshold).2.converged = true ∧
    (orchestrate envThreshold).2.iterations.length = 1 := by
  refine ⟨?_, rfl, by decide, by decide, by decide⟩
  simp [scorePlan]

/-- C10: `updateJob` with a jobId absent from the store is a silent no-op:
the store is returned unchanged (no entry created, none modified, no
failure). -/
theorem updateJob_missing_jobId_noop (jobs : JobStore) (jobId : String)
    (updates : JobPatch) (now : ℕ) (h : ∀ e ∈ jobs, e.1 ≠ jobId) :
    updateJob jobs jobId updates now = jobs := by
  unfold updateJob
  have hf : jobs.find? (fun e => e.1 == jobId) = none :=
    List.find?_eq_none.mpr (fun e he => by simpa using h e he)
  rw [hf]

/-- C10 witness: the theorem applied to a one-entry store and a missing id. -/
theorem updateJob_missing_jobId_noop_witness :
    updateJob [cEntry "a" .pending 0] "b"
        { status := none, progress := none, error := none } 5
      = [cEntry "a" .pending 0] :=
  updateJob_missing_jobId_noop _ _ _ _ (by decide)

/-- The score of `validateVastu` away from the strictness-0 short-circuit:
`max(0, 1 − (Σ w) · s)` where the penalty weights come from the
strictness-independent violation list. -/
theorem validateVastu_score_of_ne_zero (rooms : List RoomWithDirection)
    (plotGeometry : PlotGeometry) {s : ℚ} (hs : s ≠ 0) :
    (validateVastu rooms plotGeometry s).score =
      max 0 (1 - ((vastuViolationsOf rooms plotGeometry).map (fun v => v.penalty)).sum * s) := by
  unfold validateVastu
  rw [if_neg hs]
  simp only
  rw [foldl_add_eq_add_sum, zero_add, List.sum_map_mul_right]

/-- C8: with strictness 0 the Vastu validator short-circuits to score 1, an
empty violation list and a single informational PASS item, evaluating no
rule; and for positive strictness the score is monotonically decreasing in
the strictness (each failing rule contributes `w · s`, so a larger `s`
yields a smaller or equal score). -/
theorem validateVastu_strictness_behavior (rooms : List RoomWithDirection)
    (plotGeometry : PlotGeometry) :
    validateVastu rooms plotGeometry 0 =
      { violations := [], score := 1,
        complianceItems := [{ rule := .vastuCompliance, status := .PASS }] } ∧
    (∀ s₁ s₂ : ℚ, 0 < s₁ → s₁ ≤ s₂ →
      (validateVastu rooms plotGeometry s₂).score ≤
        (validateVastu rooms plotGeometry s₁).score) := by
  constructor
  · simp [validateVastu]
  · intro s₁ s₂ h1 h12
    have h2 : (0:ℚ) < s₂ := lt_of_lt_of_le h1 h12
    rw [validateVastu_score_of_ne_zero rooms plotGeometry (ne_of_gt h1),
        validateVastu_score_of_ne_zero rooms plotGeometry (ne_of_gt h2)]
    have hP : 0 ≤ ((vastuViolationsOf rooms plotGeometry).map (fun v => v.penalty)).sum := by
      refine List.sum_nonneg ?_
      intro x hx
      obtain ⟨v, hv, rfl⟩ := List.mem_map.mp hx
      exact vastuViolationsOf_penalty_nonneg rooms plotGeometry v hv
    refine max_le_max (le_refl 0) ?_
    have := mul_le_mul_of_nonneg_left h12 hP
    linarith

/-- C8 witness: the theorem applied to a kitchen placed in the Brahmasthan
(failing rules VASTU_001 and VASTU_003), at strictness 1/2 ≤ 1. -/
theorem validateVastu_strictness_behavior_witness :
    validateVastu [kitchenCenterRoom] plot10 0 =
      { violations := [], score := 1,
        complianceItems := [{ rule := .vastuCompliance, status := .PASS }] } ∧
    (validateVastu [kitchenCenterRoom] plot10 1).score ≤
      (validateVastu [kitchenCenterRoom] plot10 (1/2)).score := by
  have h := validateVastu_strictness_behavior [kitchenCenterRoom] plot10
  exact ⟨h.1, h.2 (1/2) 1 (by decide) (by decide)⟩

theorem corridorItemsOf_status (circulationRooms : List RoomWithDirection)
    (municipalConfig : MunicipalConfig) :
    ∀ i ∈ corridorItemsOf circulationRooms municipalConfig,
      i.status = ComplianceStatus.FAIL := by
  intro i hi
  obtain ⟨room, _, hsome⟩ := List.mem_filterMap.mp hi
  split at hsome
  · cases hsome; rfl
  · exact absurd hsome (by simp)

theorem ventilationItemsOf_status (habitableRooms : List RoomWithDirection)
    (municipalConfig : MunicipalConfig) :
    ∀ i ∈ ventilationItemsOf habitableRooms municipalConfig,
      i.status = ComplianceStatus.WARN := by
  intro i hi
  obtain ⟨room, _, hsome⟩ := List.mem_filterMap.mp hi
  dsimp only at hsome
  rw [ite_eq_iff] at hsome
  rcases hsome with ⟨_, h⟩ | ⟨_, h⟩
  · cases h; rfl
  · rw [ite_eq_iff] at h
    rcases h with ⟨_, h⟩ | ⟨_, h⟩
    · cases h; rfl
    · exact absurd h (by simp)

theorem roomSizeItemsOf_length (typedRooms : List RoomWithDirection)
    (municipalConfig : MunicipalConfig) :
    (roomSizeItemsOf typedRooms municipalConfig).length =
      (typedRooms.filter
        (fun room => (municipalConfig.minRoomSizes room.classification).isSome)).length := by
  unfold roomSizeItemsOf
  rw [length_filterMap_isSome]
  refine congrArg List.length (List.filter_congr ?_)
  intro room _
  cases h : municipalConfig.minRoomSizes room.classification <;> simp [h]

/-- C6 counterexample: a circulation room meeting the minimum corridor width
yields no corridor-width compliance item at all — the validator pushes
corridor-width (and ventilation) items only on failure — contradicting the
claim that each check emits one item for every room it examines, passes
included. -/
theorem regulatory_passing_corridor_no_item_counterexample :
    corridorRoom.type = RoomType.circulation ∧
    nationalBuildingCode.minCorridorWidth ≤ min corridorRoom.width corridorRoom.height ∧
    ((validateRegulatory [corridorRoom] plot10 nationalBuildingCode zeroSetbacks
        1).complianceItems.filter (fun i => isCorridorWidthItem i)) = [] ∧
    (validateRegulatory [corridorRoom] plot10 nationalBuildingCode zeroSetbacks
        1).complianceItems =
      [{ rule := .setbackCompliance, status := .PASS },
       { rule := .floorAreaRatio, status := .PASS },
       { rule := .groundCoverage, status := .PASS }] := by decide

/-- C6 (amended): checks 1–3 (setback, FAR, ground coverage) each emit
exactly one compliance item per run; check 4 (minimum room sizes) emits one
item per examined room — each room of type `room` whose classification has a
configured minimum — passing or failing; checks 5 (corridor width) and 6
(ventilation) emit items only for failures: every corridor-width item has
status FAIL and every ventilation item status WARN, so passing rooms of
those checks contribute no item. -/
theorem validateRegulatory_item_emission (rooms : List RoomWithDirection)
    (plotGeometry : PlotGeometry) (municipalConfig : MunicipalConfig)
    (setbacks : SetbackRequirements) (floors : ℚ) :
    ((validateRegulatory rooms plotGeometry municipalConfig setbacks
        floors).complianceItems.map (fun i => i.rule)) =
      ComplianceRule.setbackCompliance :: ComplianceRule.floorAreaRatio ::
      ComplianceRule.groundCoverage ::
      ((roomSizeItemsOf (rooms.filter (fun r => r.type == RoomType.room))
          municipalConfig).map (fun i => i.rule) ++
       ((corridorItemsOf (rooms.filter (fun r => r.type == RoomType.circulation))
          municipalConfig).map (fun i => i.rule) ++
        (ventilationItemsOf
          (rooms.filter (fun r => habitableClassifications.contains r.classification))
          municipalConfig).map (fun i => i.rule))) ∧
    (roomSizeItemsOf (rooms.filter (fun r => r.type == RoomType.room)) municipalConfig).length =
      ((rooms.filter (fun r => r.type == RoomType.room)).filter
        (fun room => (municipalConfig.minRoomSizes room.classification).isSome)).length ∧
    (∀ i ∈ corridorItemsOf (rooms.filter (fun r => r.type == RoomType.circulation))
        municipalConfig, i.status = ComplianceStatus.FAIL) ∧
    (∀ i ∈ ventilationItemsOf
        (rooms.filter (fun r => habitableClassifications.contains r.classification))
        municipalConfig, i.status = ComplianceStatus.WARN) := by
  refine ⟨?_, roomSizeItemsOf_length _ _, corridorItemsOf_status _ _,
    ventilationItemsOf_status _ _⟩
  simp [validateRegulatory, List.map_append]

theorem byCreatedAt_trans : ∀ a b c : String × GenerationJob,
    byCreatedAt a b → byCreatedAt b c → byCreatedAt a c := by
  intro a b c hab hbc
  simp only [byCreatedAt, decide_eq_true_eq] at *
  omega

theorem byCreatedAt_total : ∀ a b : String × GenerationJob,
    byCreatedAt a b || byCreatedAt b a := by
  intro a b
  simp only [byCreatedAt, Bool.or_eq_true, decide_eq_true_eq]
  omega

/-- C3 (amended): at capacity, `createJob` evicts an entry of minimal
`createdAt` among all stored jobs, regardless of status (the eviction sorts
by `createdAt` only, with ties broken by insertion order through the stable
sort); in particular a running job can be evicted. -/
theorem createJob_evicts_oldest_any_status (jobs : JobStore) (jobId userId : String)
    (now : ℕ) (hfull : MAX_SESSIONS ≤ jobs.length) :
    ∃ oldest, oldest ∈ jobs ∧ (∀ e ∈ jobs, oldest.2.createdAt ≤ e.2.createdAt) ∧
      (createJob jobs jobId userId now).1 =
        mapSet (jobs.eraseP (fun e => e.1 == oldest.1)) jobId (freshJob jobId userId now) := by
  cases hs : jobs.mergeSort byCreatedAt with
  | nil =>
    exfalso
    have hlen : jobs.length = 0 := by
      have h0 := congrArg List.length hs
      rw [List.length_mergeSort] at h0
      simpa using h0
    rw [hlen] at hfull
    simp [MAX_SESSIONS] at hfull
  | cons oldest rest =>
    have hmem : oldest ∈ jobs :=
      List.mem_mergeSort.mp (by rw [hs]; exact List.mem_cons_self _ _)
    have hsorted := List.sorted_mergeSort byCreatedAt_trans byCreatedAt_total jobs
    rw [hs] at hsorted
    have hmin : ∀ e ∈ jobs, oldest.2.createdAt ≤ e.2.createdAt := by
      intro e he
      have he' : e ∈ oldest :: rest := by
        rw [← hs]
        exact List.mem_mergeSort.mpr he
      rcases List.mem_cons.mp he' with rfl | hr
      · exact le_refl _
      · have hle := (List.pairwise_cons.mp hsorted).1 e hr
        simpa [byCreatedAt] using hle
    refine ⟨oldest, hmem, hmin, ?_⟩
    simp only [createJob]
    rw [if_pos hfull, hs]
    simp [List.head?_cons]

/-- C3 witness: the amended theorem applied to a full store of 1000 jobs. -/
theorem createJob_evicts_oldest_any_status_witness :
    MAX_SESSIONS ≤ runningFirstStore.length ∧
    ∃ oldest, oldest ∈ runningFirstStore ∧
      (∀ e ∈ runningFirstStore, oldest.2.createdAt ≤ e.2.createdAt) ∧
      (createJob runningFirstStore "new" "u" 5000).1 =
        mapSet (runningFirstStore.eraseP (fun e => e.1 == oldest.1)) "new"
          (freshJob "new" "u" 5000) := by
  have hlen : MAX_SESSIONS ≤ runningFirstStore.length := by
    simp [runningFirstStore, pendingTail, MAX_SESSIONS]
  exact ⟨hlen, createJob_evicts_oldest_any_status runningFirstStore "new" "u" 5000 hlen⟩

/-- C3 counterexample: a store at capacity whose oldest job is running.
`createJob` evicts it (the store afterwards holds no running job at all),
so a running job is not protected from eviction, contrary to the claim. -/
theorem createJob_evicts_running_counterexample :
    runningFirstStore.length = MAX_SESSIONS ∧
    cEntry "r0" .running 0 ∈ runningFirstStore ∧
    (cEntry "r0" .running 0).2.status = JobStatus.running ∧
    ((createJob runningFirstStore "new" "u" 5000).1.all
      (fun e => e.2.status != JobStatus.running)) = true := by
  have hlen : MAX_SESSIONS ≤ runningFirstStore.length := by
    simp [runningFirstStore, pendingTail, MAX_SESSIONS]
  have hsorted : List.Pairwise (fun a b => byCreatedAt a b = true) runningFirstStore := by
    unfold runningFirstStore
    refine List.pairwise_cons.mpr ⟨?_, ?_⟩
    · intro e he
      simp only [pendingTail] at he
      obtain ⟨i, _, rfl⟩ := List.mem_map.mp he
      simp [byCreatedAt, cEntry]
    · unfold pendingTail
      refine List.Pairwise.map _ ?_ (List.pairwise_lt_range 999)
      intro a b hab
      simp only [byCreatedAt, cEntry, decide_eq_true_eq]
      omega
  have hsort : runningFirstStore.mergeSort byCreatedAt = runningFirstStore :=
    List.mergeSort_of_sorted hsorted
  have hstore : (createJob runningFirstStore "new" "u" 5000).1 =
      mapSet pendingTail "new" (freshJob "new" "u" 5000) := by
    simp only [createJob]
    rw [if_pos hlen, hsort]
    show mapSet ((cEntry "r0" .running 0 :: pendingTail).eraseP _) _ _ = _
    rw [List.eraseP_cons_of_pos (by simp [cEntry])]
  refine ⟨?_, ?_, rfl, ?_⟩
  · simp [runningFirstStore, pendingTail, MAX_SESSIONS]
  · exact List.mem_cons_self _ _
  · rw [hstore, List.all_eq_true]
    intro e he
    rcases mem_mapSet he with hv | hmem
    · rw [hv]
      rfl
    · simp only [pendingTail] at hmem
      obtain ⟨i, _, rfl⟩ := List.mem_map.mp hmem
      rfl

theorem orchLoop_no_error (env : OrchestratorEnv) :
    ∀ (fuel i : ℕ) (plan : FloorPlanGraph),
      ((orchLoop env i fuel plan).1.all (fun e => !(isErrorEvent e))) = true := by
  intro fuel
  induction fuel with
  | zero => intro i plan; rfl
  | succ n ih =>
    intro i plan
    simp only [orchLoop]
    split
    · rfl
    · split
      · simp only [List.all_append, Bool.and_eq_true]
        exact ⟨⟨rfl, rfl⟩, ih _ _⟩
      · rfl

theorem orchLoop_no_completed (env : OrchestratorEnv) :
    ∀ (fuel i : ℕ) (plan : FloorPlanGraph),
      ((orchLoop env i fuel plan).1.all (fun e => !(isCompletedEvent e))) = true := by
  intro fuel
  induction fuel with
  | zero => intro i plan; rfl
  | succ n ih =>
    intro i plan
    simp only [orchLoop]
    split
    · rfl
    · split
      · simp only [List.all_append, Bool.and_eq_true]
        exact ⟨⟨rfl, rfl⟩, ih _ _⟩
      · rfl

/-- C2 counterexample: on a concrete run whose Cost agent call throws, the
run fails: `orchestrate` propagates the error, no `completed` event is ever
emitted, and the route broadcasts a terminal `error` event and marks the job
failed — the claimed recovery (bom = [], zero cost range, `completed`
terminal event) does not happen. -/
theorem orchestrate_cost_failure_fails_counterexample :
    (orchestrateExec env0 (.failure "cost model error")).2 =
      Except.error "cost model error" ∧
    ((orchestrateExec env0 (.failure "cost model error")).1.filter
      (fun e => isCompletedEvent e)) = [] ∧
    (runGenerationJob env0 (.failure "cost model error")).1.getLast? =
      some (ProgressEvent.error "cost model error") ∧
    (runGenerationJob env0 (.failure "cost model error")).2 = JobStatus.failed := by
  exact ⟨rfl, by decide, by decide, by decide⟩

/-- C2 (amended): if the Cost agent fails (its LLM call chain exhausts and
rethrows), the run fails: `CostAgent.execute` has no internal recovery and
the orchestrator awaits it with no try/catch (unlike the Furniture agent),
so the error propagates — no `GeneratedPlan` is assembled, no `completed`
event is emitted by the orchestrator, and the route marks the job `failed`
and broadcasts the terminal `error` event (the orchestrator's own trace
contains no `error` event; that event comes from the route's catch). -/
theorem orchestrate_cost_failure_fails (env : OrchestratorEnv) (message : String) :
    (orchestrateExec env (.failure message)).2 = Except.error message ∧
    ((orchestrateExec env (.failure message)).1.filter
      (fun e => isCompletedEvent e)) = [] ∧
    ((orchestrateExec env (.failure message)).1.all (fun e => !(isErrorEvent e))) = true ∧
    (runGenerationJob env (.failure message)).1.getLast? =
      some (ProgressEvent.error message) ∧
    (runGenerationJob env (.failure message)).2 = JobStatus.failed := by
  have hloop := orchLoop_no_completed env MAX_ITERATIONS 1 env.initialPlan
  have h1 : (orchLoop env 1 MAX_ITERATIONS env.initialPlan).1.filter
      (fun e => isCompletedEvent e) = [] := by
    rw [List.filter_eq_nil_iff]
    intro e he
    have h := List.all_eq_true.mp hloop e he
    simpa using h
  refine ⟨rfl, ?_, ?_, ?_, ?_⟩
  · simp only [orchestrateExec, costAgentExecute, List.filter_append, h1]
    rfl
  · simp only [orchestrateExec, costAgentExecute, List.all_append, Bool.and_eq_true]
    exact ⟨⟨rfl, orchLoop_no_error env MAX_ITERATIONS 1 env.initialPlan⟩, rfl⟩
  · simp only [runGenerationJob, orchestrateExec, costAgentExecute]
    exact List.getLast?_concat _
  · simp only [runGenerationJob, orchestrateExec, costAgentExecute]

/-- C5 counterexample: on a concrete run, the `violation_update` carrying
the Vastu (cultural) data is emitted strictly before the one carrying the
regulatory data within iteration 1 — the two updates of the run are, in
emission order, the cultural one then the regulatory one — contradicting
the claim that the regulatory update precedes the cultural one. -/
theorem orchestrate_vastu_first_counterexample :
    ((orchestrate env0).1.filter (fun e => isViolationUpdateEvent e)) =
      [ProgressEvent.violation_update 1 (.vastu 0 1),
       ProgressEvent.violation_update 1 (.regulatory 0 1)] := by decide

theorem violationUpdates_append (l₁ l₂ : List ProgressEvent) :
    violationUpdates (l₁ ++ l₂) = violationUpdates l₁ ++ violationUpdates l₂ :=
  List.filterMap_append l₁ l₂ _

theorem orchLoop_violationUpdates (env : OrchestratorEnv) :
    ∀ (fuel i : ℕ) (plan : FloorPlanGraph),
      violationUpdates (orchLoop env i fuel plan).1 =
        ((orchLoop env i fuel plan).2.1).flatMap (fun it =>
          [(it.iteration,
            ViolationPayload.vastu it.vastuResult.violations.length it.vastuResult.score),
           (it.iteration,
            ViolationPayload.regulatory it.regulatoryResult.violations.length
              it.regulatoryResult.score)]) := by
  intro fuel
  induction fuel with
  | zero => intro i plan; rfl
  | succ n ih =>
    intro i plan
    simp only [orchLoop]
    split
    · simp [violationUpdates]
    · split
      · simp only [violationUpdates_append, List.flatMap_cons]
        simp [violationUpdates]
        exact ih _ _
      · simp [violationUpdates]

/-- C5 (amended): within every iteration the cultural (Vastu) validator's
`violation_update` is emitted first and the regulatory validator's second:
the `violation_update` events of any run are exactly, in order, the pair
(cultural, regulatory) for each recorded iteration. -/
theorem orchestrate_violation_update_order (env : OrchestratorEnv) :
    violationUpdates (orchestrate env).1 =
      (orchestrate env).2.iterations.flatMap (fun it =>
        [(it.iteration,
          ViolationPayload.vastu it.vastuResult.violations.length it.vastuResult.score),
         (it.iteration,
          ViolationPayload.regulatory it.regulatoryResult.violations.length
            it.regulatoryResult.score)]) := by
  have h := orchLoop_violationUpdates env MAX_ITERATIONS 1 env.initialPlan
  simp only [orchestrate, violationUpdates_append, h]
  simp [violationUpdates]

end ClaimTheorems

end ArchAI

